import Mathlib

/-!
Verification of the Blend agent pipeline orchestrator
(`backend/app/agents/`): a shallow embedding of the LangGraph state,
the five agent nodes, the two routing functions, and the compiled
workflow, together with proofs of the spec's orchestration properties.

External collaborators (the LLM service, the DuckDB execution engine)
are modelled as oracles: per-invocation outcome data ranged over
universally in the theorems.
-/

namespace Blend

/-- A result row, as produced by `data_service.execute_query`: an ordered
record of column name / value pairs.  A `none` value models SQL NULL. -/
def Row := List (String × Option String)

instance : DecidableEq Row := by
  unfold Row; infer_instance

/-- The slice of `file_metadata` the agents read (remaining fields only feed
prompt text and never influence control flow or state updates). -/
structure FileMeta where
  columns : List String
  deriving Repr, DecidableEq

/-- A visualization suggestion, as built by `_extract_visualizations`. -/
structure Viz where
  type_ : String
  title : String
  data : List Row
  x_axis : String
  y_axis : String
  height : Nat
  deriving DecidableEq

/-- `GraphState` from `graph.py`: the TypedDict threaded through the
LangGraph workflow.  Optional dict keys are `Option`; keys the chat route
zero-initializes are given their concrete type directly.  The initial
`query_results: None` of the chat route is modelled as `[]`: every read
site guards it with Python falsiness, under which `None` and `[]`
behave identically. -/
structure GraphState where
  user_query : String
  file_id : Option String
  query_type : Option String
  entities : List (String × String)
  intent : Option String
  file_metadata : Option FileMeta
  table_name : Option String
  sql_query : Option String
  sql_valid : Bool
  sql_attempts : List String
  query_results : List Row
  result_count : Nat
  validation_passed : Bool
  validation_errors : List String
  retry_count : Nat
  insights : Option String
  visualizations : List Viz
  errors : List String
  deriving DecidableEq

/-- The zero-initialized state the chat route builds before invoking
`run_agent_workflow` (chat.py: `state_dict = {...}`). -/
def initState (q : String) (fid : Option String) (md : Option FileMeta)
    (tn : Option String) : GraphState :=
  { user_query := q
    file_id := fid
    query_type := none
    entities := []
    intent := none
    file_metadata := md
    table_name := tn
    sql_query := none
    sql_valid := false
    sql_attempts := []
    query_results := []
    result_count := 0
    validation_passed := false
    validation_errors := []
    retry_count := 0
    insights := none
    visualizations := []
    errors := [] }

/-- Python truthiness of an optional string (`not x` is true for `None`
and for `""`). -/
def strTruthy : Option String → Bool
  | none => false
  | some s => s ≠ ""

/-! ## Oracles for the external collaborators -/

/-- Outcome of `llm_service.generate_json` in the query-understanding
agent: either a JSON object (each key possibly missing) or a raised
exception with its message. -/
inductive ClassifyOutcome
  | ok (query_type : Option String) (intent : Option String)
      (entities : Option (List (String × String)))
  | err (msg : String)

/-- Outcome of one synthesis attempt: the raw text returned by
`llm_service.generate` together with the verdict of
`data_service.validate_sql` on the cleaned text, or a raised exception. -/
inductive SynthOutcome
  | ok (raw : String) (valid : Bool) (verr : String)
  | err (msg : String)

/-- Outcome of `data_service.execute_query`. -/
inductive ExecOutcome
  | ok (rows : List Row)
  | err (msg : String)

/-- Outcome of `llm_service.generate_json` in the validation agent:
the checker's JSON (keys `valid` / `issues`, possibly missing) or a
raised exception. -/
inductive CheckOutcome
  | ok (valid : Option Bool) (issues : Option (List String))
  | err (msg : String)

/-- Outcome of `llm_service.generate` in the insight agent. -/
inductive NarrOutcome
  | ok (text : String)
  | err (msg : String)

/-- The external world for one request: the classifier outcome, and the
synthesis / execution / check outcomes of the i-th loop iteration. -/
structure Oracle where
  classify : ClassifyOutcome
  synth : Nat → SynthOutcome
  exec : Nat → ExecOutcome
  check : Nat → CheckOutcome
  narr : NarrOutcome

/-! ## Agent nodes

Each agent is the corresponding Python coroutine, with the awaited
external call replaced by its oracle outcome.  The Python function
returns a partial update dict which LangGraph merges key-by-key
(no reducers are declared on `GraphState`, so merge is plain
overwrite); here each agent returns the merged full state, writing
exactly the keys its update dict contains. -/

/-- `query_understanding_agent` (query_understanding.py). -/
def query_understanding_agent (o : ClassifyOutcome) (s : GraphState) :
    GraphState :=
  match o with
  | .ok qt it ents =>
      let query_type_str := qt.getD "qa"
      let intent := it.getD s.user_query
      let entities := ents.getD []
      let query_type :=
        if query_type_str = "summarization" ∨ query_type_str = "qa" ∨
            query_type_str = "dashboard" then query_type_str else "qa"
      { s with query_type := some query_type
               intent := some intent
               entities := entities }
  | .err msg =>
      { s with query_type := some "qa"
               intent := some s.user_query
               entities := []
               errors := s.errors ++ ["Query understanding error: " ++ msg] }

/-- Python's `str.strip()` on the character list of a string. -/
def pyStrip (l : List Char) : List Char :=
  ((l.dropWhile Char.isWhitespace).reverse.dropWhile Char.isWhitespace).reverse

/-- The markdown-fence cleanup in `sql_generation_agent`
(strip, drop leading ```sql or ```, drop trailing ```, strip;
the three fence tests are independent `if`s, exactly as in the source). -/
def cleanSql (raw : String) : String :=
  let t := pyStrip raw.data
  let t := if "```sql".data.isPrefixOf t then t.drop 6 else t
  let t := if "```".data.isPrefixOf t then t.drop 3 else t
  let t := if "```".data.reverse.isPrefixOf t.reverse then t.take (t.length - 3)
           else t
  ⟨pyStrip t⟩

/-- `sql_generation_agent` (sql_generation.py). -/
def sql_generation_agent (o : SynthOutcome) (s : GraphState) : GraphState :=
  if ¬ s.file_metadata.isSome ∨ ¬ strTruthy s.table_name then
    { s with errors := s.errors ++ ["No file metadata or table name available"]
             sql_valid := false }
  else
    match o with
    | .ok raw valid verr =>
        let sql_query := cleanSql raw
        let sql_attempts := s.sql_attempts ++ [sql_query]
        if ¬ valid then
          { s with sql_query := some sql_query
                   sql_valid := false
                   sql_attempts := sql_attempts
                   errors := s.errors ++ ["Invalid SQL: " ++ verr] }
        else
          { s with sql_query := some sql_query
                   sql_valid := true
                   sql_attempts := sql_attempts }
    | .err msg =>
        { s with sql_valid := false
                 errors := s.errors ++ ["SQL generation error: " ++ msg] }

/-- `data_retrieval_agent` (data_retrieval.py). -/
def data_retrieval_agent (o : ExecOutcome) (s : GraphState) : GraphState :=
  if ¬ strTruthy s.sql_query ∨ ¬ s.sql_valid then
    { s with errors := s.errors ++ ["No valid SQL query to execute"]
             query_results := []
             result_count := 0 }
  else
    match o with
    | .ok rows =>
        { s with query_results := rows, result_count := rows.length }
    | .err msg =>
        { s with query_results := []
                 result_count := 0
                 errors := s.errors ++ ["Data retrieval error: " ++ msg] }

/-- The two cheap structural checks of `validation_agent` (zero rows;
all sampled values NULL across the first 10 rows). -/
def structuralFindings (s : GraphState) : List String :=
  (if s.result_count = 0 then ["No results returned"] else []) ++
  (if s.query_results ≠ [] ∧
      (s.query_results.take 10).all
        (fun row => row.all (fun kv => kv.2 = none))
   then ["All values are NULL"] else [])

/-- `validation_agent` (validation.py). -/
def validation_agent (o : CheckOutcome) (s : GraphState) : GraphState :=
  match o with
  | .err msg =>
      { s with validation_passed := true
               validation_errors := ["Validation error: " ++ msg] }
  | .ok valid issues =>
      let validation_errors := structuralFindings s
      let is_valid := valid.getD true
      let llm_issues := issues.getD []
      let all_errors := validation_errors ++ llm_issues
      let retry_count := s.retry_count
      if ¬ is_valid ∧ retry_count < 2 then
        { s with validation_passed := false
                 validation_errors := all_errors
                 retry_count := retry_count + 1 }
      else if is_valid ∨ retry_count ≥ 2 then
        { s with validation_passed := true
                 validation_errors := [] }
      else
        { s with validation_passed := false
                 validation_errors := all_errors }

/-- `_generate_fallback_insights` (insight_generation.py). -/
def generate_fallback_insights (s : GraphState) : String :=
  if s.result_count = 0 then
    "No data found matching your query. Try rephrasing or checking the date range."
  else
    match s.query_results with
    | [] =>
        "Found " ++ toString s.result_count ++
          " records matching your query.\n\n"
    | row :: _ =>
        "Found " ++ toString s.result_count ++
          " records matching your query.\n\n" ++ "Sample data:\n" ++
          String.join ((row.take 5).map (fun kv =>
            "- " ++ kv.1 ++ ": " ++
              (match kv.2 with | none => "None" | some v => v) ++ "\n"))

/-- Substring test (Python's `in` on strings), on character lists. -/
def containsSub (needle : List Char) : List Char → Bool
  | [] => needle.isPrefixOf []
  | c :: t => needle.isPrefixOf (c :: t) || containsSub needle t

/-- `_extract_visualizations` (insight_generation.py). -/
def extract_visualizations (insights : String) (results : List Row) :
    List Viz :=
  match results with
  | [] => []
  | sample :: _ =>
      let insights_lower := insights.data.map Char.toLower
      if (["chart", "graph", "plot", "visualize"].any
            (fun kw => containsSub kw.data insights_lower)) then
        let keys := sample.map Prod.fst
        if keys.length ≥ 2 then
          [{ type_ := "bar"
             title := "Data Visualization"
             data := results.take 20
             x_axis := keys.headI
             y_axis := keys.tail.headI
             height := 300 }]
        else []
      else []

/-- `insight_generation_agent` (insight_generation.py). -/
def insight_generation_agent (o : NarrOutcome) (s : GraphState) :
    GraphState :=
  match o with
  | .ok text =>
      let insights :=
        if pyStrip text.data = [] then generate_fallback_insights s else text
      { s with insights := some insights
               visualizations := extract_visualizations insights s.query_results }
  | .err msg =>
      { s with insights := some (generate_fallback_insights s)
               visualizations := []
               errors := s.errors ++ ["Insight generation error: " ++ msg] }

/-! ## Routing functions and the compiled workflow -/

/-- `should_generate_sql` (graph.py). -/
def should_generate_sql (s : GraphState) : String :=
  if s.query_type = some "qa" ∨ s.query_type = some "dashboard" then
    "sql_generation"
  else if s.query_type = some "summarization" then
    "generate_summary"
  else
    "sql_generation"

/-- `should_retry_sql` (graph.py). -/
def should_retry_sql (s : GraphState) : String :=
  if ¬ s.validation_passed ∧ s.retry_count < 2 then "sql_generation"
  else "insight_generation"

/-- One pass of the SQL loop plus the routing decision, iterated with
fuel (the loop in the compiled graph has no static bound of its own;
`runPipeline_total` proves fuel 3 always suffices).  Returns the
terminal state, the trace of states after each node, and the number of
times `sql_generation` ran. -/
def sqlLoop (O : Oracle) : Nat → Nat → GraphState →
    Option (GraphState × List GraphState × Nat)
  | 0, _, _ => none
  | fuel + 1, i, s =>
      let s1 := sql_generation_agent (O.synth i) s
      let s2 := data_retrieval_agent (O.exec i) s1
      let s3 := validation_agent (O.check i) s2
      if should_retry_sql s3 = "sql_generation" then
        match sqlLoop O fuel (i + 1) s3 with
        | none => none
        | some (t, tr, n) => some (t, s1 :: s2 :: s3 :: tr, n + 1)
      else
        let s4 := insight_generation_agent O.narr s3
        some (s4, [s1, s2, s3, s4], 1)

/-- The compiled workflow of `create_agent_graph`:
entry point `query_understanding`, the `should_generate_sql` branch,
the `sql_generation → data_retrieval → validation` chain with the
`should_retry_sql` back edge, then `insight_generation → END`.
Returns the terminal state, the full trace (initial state included),
and the number of synthesis runs; `none` only if the loop fuel of 3 were
to run out (it never does: `runPipeline_total`). -/
def runPipeline (O : Oracle) (s0 : GraphState) :
    Option (GraphState × List GraphState × Nat) :=
  let s1 := query_understanding_agent O.classify s0
  if should_generate_sql s1 = "generate_summary" then
    let s2 := insight_generation_agent O.narr s1
    some (s2, [s0, s1, s2], 0)
  else
    match sqlLoop O 3 0 s1 with
    | none => none
    | some (t, tr, n) => some (t, s0 :: s1 :: tr, n)

/-- Whether synthesis is actually invoked from state `s`: the guard of
`sql_generation_agent` (metadata and table name both truthy). -/
def mdOK (s : GraphState) : Bool :=
  s.file_metadata.isSome && strTruthy s.table_name

/-- The query texts the synthesis stage records over `n` loop iterations
starting at iteration `i`: one cleaned text per iteration in which the
dataset guard passes and the synthesizer does not raise. -/
def attemptTexts (O : Oracle) (ok : Bool) : Nat → Nat → List String
  | _, 0 => []
  | i, n + 1 =>
      (if ok then
        match O.synth i with
        | .ok raw _ _ => [cleanSql raw]
        | .err _ => []
       else []) ++ attemptTexts O ok (i + 1) n

/-! ## Concrete fixtures used by witnesses and counterexamples -/

/-- A two-column schema. -/
def mdAB : FileMeta := { columns := ["region", "revenue"] }

/-- A two-column result row. -/
def rowAB : Row := [("region", some "west"), ("revenue", some "42")]

/-- A zero-initialized request state with a dataset bound. -/
def stWithData : GraphState :=
  initState "top regions" (some "f1") (some mdAB) (some "tbl_f1")

/-- A zero-initialized request state with no dataset bound. -/
def stNoData : GraphState := initState "hello" none none none

/-- An oracle whose checker rejects every result: the classifier says qa,
synthesis always yields the same valid query, execution returns one row,
and the semantic checker reports invalid each time. -/
def OAlwaysInvalid : Oracle :=
  { classify := ClassifyOutcome.ok (some "qa") (some "top regions") (some [])
    synth := fun _ => SynthOutcome.ok "SELECT 1" true ""
    exec := fun _ => ExecOutcome.ok [rowAB]
    check := fun _ => CheckOutcome.ok (some false)
      (some ["result does not answer the question"])
    narr := NarrOutcome.ok "Here are the results." }

/-- An oracle for a request on which every stage succeeds first try. -/
def OAllGood : Oracle :=
  { classify := ClassifyOutcome.ok (some "qa") (some "top regions") (some [])
    synth := fun _ => SynthOutcome.ok "SELECT region, revenue FROM tbl_f1" true ""
    exec := fun _ => ExecOutcome.ok [rowAB]
    check := fun _ => CheckOutcome.ok (some true) (some [])
    narr := NarrOutcome.ok "The west region leads." }

/-- An oracle classifying the request as summarization. -/
def OSummarize : Oracle :=
  { classify := ClassifyOutcome.ok (some "summarization") (some "summarize") (some [])
    synth := fun _ => SynthOutcome.ok "SELECT 1" true ""
    exec := fun _ => ExecOutcome.ok [rowAB]
    check := fun _ => CheckOutcome.ok (some true) (some [])
    narr := NarrOutcome.ok "This dataset has two columns." }

end Blend

namespace Blend

/-! ## Helper lemmas -/

lemma str_eq_empty_of_length (s : String) (h : s.length = 0) : s = "" := by
  cases s with
  | mk data =>
      have hd : data = [] := List.length_eq_zero.mp h
      simp [hd]

lemma append_ne_empty_left (a b : String) (h : a ≠ "") : a ++ b ≠ "" := by
  intro he
  have hl := congrArg String.length he
  rw [String.length_append] at hl
  have h0 : ("" : String).length = 0 := rfl
  rw [h0] at hl
  have ha : a.length = 0 := by omega
  exact h (str_eq_empty_of_length a ha)

lemma generate_fallback_insights_ne_empty (s : GraphState) :
    generate_fallback_insights s ≠ "" := by
  unfold generate_fallback_insights
  split
  · decide
  · split
    · apply append_ne_empty_left
      apply append_ne_empty_left
      decide
    · apply append_ne_empty_left
      apply append_ne_empty_left
      apply append_ne_empty_left
      apply append_ne_empty_left
      decide

end Blend

namespace Blend

/-! ## C5: classification totality -/

/-- C5: the Classification stage is total at the orchestrator boundary:
the produced category always lies in the closed set qa / summarization /
dashboard; an unrecognized classifier value defaults to qa; and a raised
classifier exception is converted to category qa, intent equal to the
original query, empty entities and one appended errors entry.  The agent
is a total Lean function, so classification never aborts the request. -/
theorem C5_classification_total (o : ClassifyOutcome) (s : GraphState) :
    ((query_understanding_agent o s).query_type = some "qa" ∨
     (query_understanding_agent o s).query_type = some "summarization" ∨
     (query_understanding_agent o s).query_type = some "dashboard") ∧
    (∀ qt it ents, o = ClassifyOutcome.ok qt it ents →
      qt.getD "qa" ≠ "summarization" → qt.getD "qa" ≠ "qa" →
      qt.getD "qa" ≠ "dashboard" →
      (query_understanding_agent o s).query_type = some "qa") ∧
    (∀ m, o = ClassifyOutcome.err m →
      query_understanding_agent o s =
        { s with query_type := some "qa"
                 intent := some s.user_query
                 entities := []
                 errors := s.errors ++ ["Query understanding error: " ++ m] }) := by
  refine ⟨?_, ?_, ?_⟩
  · cases o with
    | ok qt it ents =>
        simp only [query_understanding_agent]
        split
        · next h =>
            rcases h with h | h | h
            · right; left; simp [h]
            · left; simp [h]
            · right; right; simp [h]
        · left; rfl
    | err m => left; rfl
  · intro qt it ents heq h1 h2 h3
    subst heq
    simp only [query_understanding_agent]
    split
    · next h => rcases h with h | h | h <;> simp_all
    · rfl
  · intro m heq
    subst heq
    rfl

/-- Witness for C5 at concrete inputs: an unrecognized category defaults
to qa, and a raised classifier converts to the degraded update. -/
theorem C5_witness :
    (query_understanding_agent
        (ClassifyOutcome.ok (some "chitchat") none none) stNoData).query_type =
      some "qa" ∧
    query_understanding_agent (ClassifyOutcome.err "model overloaded") stNoData =
      { stNoData with
          query_type := some "qa"
          intent := some stNoData.user_query
          entities := []
          errors := stNoData.errors ++
            ["Query understanding error: " ++ "model overloaded"] } :=
  ⟨(C5_classification_total (ClassifyOutcome.ok (some "chitchat") none none)
      stNoData).2.1 (some "chitchat") none none rfl
      (by decide) (by decide) (by decide),
   (C5_classification_total (ClassifyOutcome.err "model overloaded")
      stNoData).2.2 "model overloaded" rfl⟩

/-! ## C6: checker failure handling -/

/-- C6 counterexample: when the external checker raises, the failure
message is recorded in `validation_errors` (the validationIssues field),
not in `errors` — here `errors` stays empty after a checker exception,
refuting the claim that the failure lands in the state's errors field. -/
theorem C6_counterexample :
    (validation_agent (CheckOutcome.err "checker down") stNoData).validation_passed
        = true ∧
    (validation_agent (CheckOutcome.err "checker down") stNoData).errors = [] ∧
    (validation_agent (CheckOutcome.err "checker down") stNoData).validation_errors
        = ["Validation error: checker down"] :=
  ⟨rfl, rfl, rfl⟩

/-- C6 amended: when the external checker raises, the Result-Check stage
returns validationPassed=true so the pipeline makes forward progress, and
the checker's failure message is recorded in `validation_errors`
(validationIssues); the `errors` field is left unchanged. -/
theorem C6_checker_failure_passes (m : String) (s : GraphState) :
    validation_agent (CheckOutcome.err m) s =
      { s with validation_passed := true
               validation_errors := ["Validation error: " ++ m] } :=
  rfl

/-! ## C7: execution guarded and total -/

/-- C7: the Execution stage never executes an invalid query and never
raises (it is a total function of state and engine outcome): with no
query text or an invalid one it returns empty rows, zero count and the
"No valid SQL query to execute" errors entry; with a valid query whose
engine run fails it returns empty rows, zero count and the engine's
message appended to errors. -/
theorem C7_execution_guarded (o : ExecOutcome) (s : GraphState) :
    (strTruthy s.sql_query = false ∨ s.sql_valid = false →
      data_retrieval_agent o s =
        { s with query_results := []
                 result_count := 0
                 errors := s.errors ++ ["No valid SQL query to execute"] }) ∧
    (∀ m, strTruthy s.sql_query = true → s.sql_valid = true →
      o = ExecOutcome.err m →
      data_retrieval_agent o s =
        { s with query_results := []
                 result_count := 0
                 errors := s.errors ++ ["Data retrieval error: " ++ m] }) := by
  constructor
  · intro h
    unfold data_retrieval_agent
    rw [if_pos]
    rcases h with h | h <;> simp [h]
  · intro m h1 h2 heq
    subst heq
    unfold data_retrieval_agent
    rw [if_neg]
    simp [h1, h2]

/-- Witness for C7 at concrete inputs: the zero-initialized state has no
query text, and a valid-query state with a failing engine degrades to
empty rows plus an errors entry. -/
theorem C7_witness :
    data_retrieval_agent (ExecOutcome.ok [rowAB]) stNoData =
      { stNoData with
          query_results := []
          result_count := 0
          errors := stNoData.errors ++ ["No valid SQL query to execute"] } ∧
    data_retrieval_agent (ExecOutcome.err "Binder Error")
        { stWithData with sql_query := some "SELECT 1", sql_valid := true } =
      { stWithData with
          sql_query := some "SELECT 1"
          sql_valid := true
          query_results := []
          result_count := 0
          errors := stWithData.errors ++
            ["Data retrieval error: " ++ "Binder Error"] } :=
  ⟨(C7_execution_guarded (ExecOutcome.ok [rowAB]) stNoData).1 (Or.inl rfl),
   (C7_execution_guarded (ExecOutcome.err "Binder Error")
      { stWithData with sql_query := some "SELECT 1", sql_valid := true }).2
      "Binder Error" rfl rfl rfl⟩

/-! ## C10: the checker's verdict alone decides -/

/-- C10: whenever the external checker reports valid=true (also by key
default), the Result-Check stage returns validationPassed=true with
validationIssues cleared and retryCount untouched, for every state —
in particular when the structural checks (zero rows, all-NULL sample)
recorded findings — and the router then continues to Narrative, so
structural findings alone never trigger a retry. -/
theorem C10_checker_verdict_wins (valid : Option Bool)
    (issues : Option (List String)) (s : GraphState) :
    valid.getD true = true →
    validation_agent (CheckOutcome.ok valid issues) s =
      { s with validation_passed := true, validation_errors := [] } ∧
    should_retry_sql (validation_agent (CheckOutcome.ok valid issues) s) =
      "insight_generation" := by
  intro h
  have heq : validation_agent (CheckOutcome.ok valid issues) s =
      { s with validation_passed := true, validation_errors := [] } := by
    show (if ¬ (valid.getD true) ∧ s.retry_count < 2 then _
          else if (valid.getD true : Bool) ∨ s.retry_count ≥ 2 then _ else _) = _
    rw [if_neg (fun hc => hc.1 h), if_pos (Or.inl h)]
  exact ⟨heq, by rw [heq]; rfl⟩

/-- Witness for C10 at a concrete input: zero rows were returned (so the
structural check records "No results returned"), yet a valid=true checker
verdict yields a passed validation with cleared issues and the continue
route. -/
theorem C10_witness :
    validation_agent (CheckOutcome.ok (some true) (some [])) stWithData =
      { stWithData with validation_passed := true, validation_errors := [] } ∧
    should_retry_sql
        (validation_agent (CheckOutcome.ok (some true) (some [])) stWithData) =
      "insight_generation" :=
  C10_checker_verdict_wins (some true) (some []) stWithData rfl

end Blend

namespace Blend

/-! ## C8: narrative never empty, fallback behaviour -/

/-- C8 counterexample: when the external synthesizer returns empty output,
the deterministic fallback is used but nothing is appended to `errors` —
refuting the claim that the failure is appended to errors in that case. -/
theorem C8_counterexample :
    (insight_generation_agent (NarrOutcome.ok "") stNoData).insights =
      some "No data found matching your query. Try rephrasing or checking the date range." ∧
    (insight_generation_agent (NarrOutcome.ok "") stNoData).errors = [] :=
  ⟨rfl, rfl⟩

/-- Evaluation of the insight agent on a synthesizer success. -/
lemma insight_ok_eq (text : String) (s : GraphState) :
    insight_generation_agent (NarrOutcome.ok text) s =
      { s with
          insights := some (if pyStrip text.data = []
            then generate_fallback_insights s else text)
          visualizations := extract_visualizations
            (if pyStrip text.data = [] then generate_fallback_insights s
             else text) s.query_results } :=
  rfl

/-- C8 amended: the Narrative stage always produces a non-empty message;
empty synthesizer output is replaced by the deterministic fallback built
from rowCount and a sample of rows (the "no data found" message when
rowCount is 0) without an errors entry; a synthesizer exception uses the
same fallback and appends the failure to errors. -/
theorem C8_narrative_nonempty (o : NarrOutcome) (s : GraphState) :
    ((insight_generation_agent o s).insights.getD "" ≠ "") ∧
    (∀ m, o = NarrOutcome.err m →
      insight_generation_agent o s =
        { s with insights := some (generate_fallback_insights s)
                 visualizations := []
                 errors := s.errors ++ ["Insight generation error: " ++ m] }) ∧
    (∀ text, o = NarrOutcome.ok text → pyStrip text.data = [] →
      insight_generation_agent o s =
        { s with insights := some (generate_fallback_insights s)
                 visualizations :=
                   extract_visualizations (generate_fallback_insights s)
                     s.query_results }) ∧
    (s.result_count = 0 →
      generate_fallback_insights s =
        "No data found matching your query. Try rephrasing or checking the date range.") := by
  refine ⟨?_, ?_, ?_, ?_⟩
  · cases o with
    | ok text =>
        rw [insight_ok_eq]
        by_cases hc : pyStrip text.data = []
        · rw [if_pos hc]
          exact generate_fallback_insights_ne_empty s
        · rw [if_neg hc]
          show text ≠ ""
          intro he
          exact hc (by rw [he]; rfl)
    | err m => exact generate_fallback_insights_ne_empty s
  · intro m heq
    subst heq
    rfl
  · intro text heq hstrip
    subst heq
    rw [insight_ok_eq, if_pos hstrip]
  · intro h0
    unfold generate_fallback_insights
    rw [if_pos h0]

/-- Witness for C8 at concrete inputs: a failing synthesizer over the
zero-initialized state yields the "no data found" fallback with the
failure appended to errors, and the fallback at rowCount 0 is that exact
message. -/
theorem C8_witness :
    insight_generation_agent (NarrOutcome.err "timeout") stNoData =
      { stNoData with
          insights := some (generate_fallback_insights stNoData)
          visualizations := []
          errors := stNoData.errors ++
            ["Insight generation error: " ++ "timeout"] } ∧
    generate_fallback_insights stNoData =
      "No data found matching your query. Try rephrasing or checking the date range." :=
  ⟨(C8_narrative_nonempty (NarrOutcome.err "timeout") stNoData).2.1 "timeout" rfl,
   (C8_narrative_nonempty (NarrOutcome.err "timeout") stNoData).2.2.2 rfl⟩

/-! ## C9: visualization suggestion rules -/

/-- C9: the Narrative stage proposes at most one visualization
suggestion, only when the result rows are non-empty and the narrative
text contains one of the keywords chart / graph / plot / visualize
(case-insensitively); any proposed suggestion takes the first and second
columns of the first result row as its x and y axes; with empty rows or
no keyword the list is empty. -/
theorem C9_visualization_rules (insights : String) (results : List Row) :
    (results = [] → extract_visualizations insights results = []) ∧
    ((["chart", "graph", "plot", "visualize"].all
        (fun kw => ! containsSub kw.data (insights.data.map Char.toLower))) = true →
      extract_visualizations insights results = []) ∧
    (extract_visualizations insights results).length ≤ 1 ∧
    (∀ v, v ∈ extract_visualizations insights results →
      ∃ sample rest, results = sample :: rest ∧
        v.x_axis = (sample.map Prod.fst).headI ∧
        v.y_axis = ((sample.map Prod.fst).tail).headI) := by
  refine ⟨?_, ?_, ?_, ?_⟩
  · intro h
    subst h
    rfl
  · intro hnone
    cases results with
    | nil => rfl
    | cons sample rest =>
        show (if (["chart", "graph", "plot", "visualize"].any
            (fun kw => containsSub kw.data (insights.data.map Char.toLower))) then _
          else []) = ([] : List Viz)
        rw [if_neg]
        simp only [List.all_eq_true] at hnone
        simp only [List.any_eq_true, not_exists, not_and]
        intro kw hkw
        have := hnone kw hkw
        simp only [Bool.not_eq_true'] at this
        simp [this]
  · cases results with
    | nil => exact Nat.le_of_lt_succ (by simp [extract_visualizations])
    | cons sample rest =>
        show (if _ then (if _ then [_] else []) else []).length ≤ 1
        split
        · split
          · exact le_refl 1
          · exact Nat.zero_le 1
        · exact Nat.zero_le 1
  · intro v hv
    cases results with
    | nil => simp [extract_visualizations] at hv
    | cons sample rest =>
        refine ⟨sample, rest, rfl, ?_, ?_⟩ <;>
        · revert hv
          show v ∈ (if _ then (if _ then [_] else []) else []) → _
          split
          · split
            · intro hv
              rw [List.mem_singleton] at hv
              subst hv
              rfl
            · intro hv
              exact absurd hv (List.not_mem_nil v)
          · intro hv
            exact absurd hv (List.not_mem_nil v)

/-- Witness for C9 at concrete inputs: a keyword-free narrative yields no
suggestion, and the suggestion built from a "chart" narrative over a
two-column row uses its columns as the axes. -/
theorem C9_witness :
    extract_visualizations "Plain text." [rowAB] = [] ∧
    ∃ sample rest, [rowAB] = sample :: rest ∧
      ({ type_ := "bar", title := "Data Visualization", data := [rowAB]
         x_axis := "region", y_axis := "revenue", height := 300 } : Viz).x_axis =
        (sample.map Prod.fst).headI ∧
      ({ type_ := "bar", title := "Data Visualization", data := [rowAB]
         x_axis := "region", y_axis := "revenue", height := 300 } : Viz).y_axis =
        ((sample.map Prod.fst).tail).headI :=
  ⟨(C9_visualization_rules "Plain text." [rowAB]).2.1 (by decide),
   (C9_visualization_rules "Here is a chart." [rowAB]).2.2.2 _ (by decide)⟩

end Blend

namespace Blend

/-! ## Evaluation and preservation lemmas for the loop agents -/

/-- Evaluation of the validation agent on a checker success. -/
lemma validation_ok_eq (v : Option Bool) (iss : Option (List String))
    (s : GraphState) :
    validation_agent (CheckOutcome.ok v iss) s =
      if ¬ (v.getD true = true) ∧ s.retry_count < 2 then
        { s with validation_passed := false
                 validation_errors := structuralFindings s ++ iss.getD []
                 retry_count := s.retry_count + 1 }
      else if (v.getD true : Bool) = true ∨ s.retry_count ≥ 2 then
        { s with validation_passed := true, validation_errors := [] }
      else
        { s with validation_passed := false
                 validation_errors := structuralFindings s ++ iss.getD [] } :=
  rfl

lemma qua_preserves (o : ClassifyOutcome) (s : GraphState) :
    (query_understanding_agent o s).retry_count = s.retry_count ∧
    (query_understanding_agent o s).sql_attempts = s.sql_attempts ∧
    (query_understanding_agent o s).file_metadata = s.file_metadata ∧
    (query_understanding_agent o s).table_name = s.table_name ∧
    (query_understanding_agent o s).query_results = s.query_results ∧
    (query_understanding_agent o s).result_count = s.result_count := by
  cases o <;> exact ⟨rfl, rfl, rfl, rfl, rfl, rfl⟩

lemma sg_preserves (o : SynthOutcome) (s : GraphState) :
    (sql_generation_agent o s).retry_count = s.retry_count ∧
    (sql_generation_agent o s).file_metadata = s.file_metadata ∧
    (sql_generation_agent o s).table_name = s.table_name := by
  unfold sql_generation_agent
  split
  · exact ⟨rfl, rfl, rfl⟩
  · cases o with
    | ok raw valid verr => cases valid <;> exact ⟨rfl, rfl, rfl⟩
    | err m => exact ⟨rfl, rfl, rfl⟩

lemma sg_attempts (o : SynthOutcome) (s : GraphState) :
    (sql_generation_agent o s).sql_attempts =
      s.sql_attempts ++
        (if mdOK s then
          match o with
          | SynthOutcome.ok raw _ _ => [cleanSql raw]
          | SynthOutcome.err _ => []
         else []) := by
  unfold sql_generation_agent mdOK
  by_cases hmd : s.file_metadata.isSome = true <;>
    by_cases htn : strTruthy s.table_name = true
  · rw [if_neg (by simp [hmd, htn]), if_pos (by simp [hmd, htn])]
    cases o with
    | ok raw valid verr => cases valid <;> rfl
    | err m => simp
  · rw [if_pos (by simp [htn]), if_neg (by simp [htn])]
    simp
  · rw [if_pos (by simp [hmd]), if_neg (by simp [hmd])]
    simp
  · rw [if_pos (by simp [hmd]), if_neg (by simp [hmd])]
    simp

lemma dr_preserves (o : ExecOutcome) (s : GraphState) :
    (data_retrieval_agent o s).retry_count = s.retry_count ∧
    (data_retrieval_agent o s).sql_attempts = s.sql_attempts ∧
    (data_retrieval_agent o s).file_metadata = s.file_metadata ∧
    (data_retrieval_agent o s).table_name = s.table_name := by
  unfold data_retrieval_agent
  split
  · exact ⟨rfl, rfl, rfl, rfl⟩
  · cases o <;> exact ⟨rfl, rfl, rfl, rfl⟩

lemma val_preserves (o : CheckOutcome) (s : GraphState) :
    (validation_agent o s).sql_attempts = s.sql_attempts ∧
    (validation_agent o s).file_metadata = s.file_metadata ∧
    (validation_agent o s).table_name = s.table_name := by
  cases o with
  | err m => exact ⟨rfl, rfl, rfl⟩
  | ok v iss =>
      rw [validation_ok_eq]
      split_ifs <;> exact ⟨rfl, rfl, rfl⟩

lemma ig_preserves (o : NarrOutcome) (s : GraphState) :
    (insight_generation_agent o s).retry_count = s.retry_count ∧
    (insight_generation_agent o s).sql_attempts = s.sql_attempts ∧
    (insight_generation_agent o s).query_results = s.query_results ∧
    (insight_generation_agent o s).result_count = s.result_count := by
  cases o with
  | ok text => rw [insight_ok_eq]; exact ⟨rfl, rfl, rfl, rfl⟩
  | err m => exact ⟨rfl, rfl, rfl, rfl⟩

lemma mdOK_congr (s s' : GraphState)
    (hfm : s'.file_metadata = s.file_metadata)
    (htn : s'.table_name = s.table_name) : mdOK s' = mdOK s := by
  unfold mdOK
  rw [hfm, htn]

/-- The validation agent either reports a pass keeping retryCount, or
reports a failure incrementing a retryCount that was still below 2. -/
lemma validation_cases (o : CheckOutcome) (s : GraphState) :
    ((validation_agent o s).validation_passed = true ∧
     (validation_agent o s).retry_count = s.retry_count) ∨
    ((validation_agent o s).validation_passed = false ∧
     (validation_agent o s).retry_count = s.retry_count + 1 ∧
     s.retry_count < 2) := by
  cases o with
  | err m => exact Or.inl ⟨rfl, rfl⟩
  | ok v iss =>
      rw [validation_ok_eq]
      split_ifs with h1 h2
      · exact Or.inr ⟨rfl, rfl, h1.2⟩
      · exact Or.inl ⟨rfl, rfl⟩
      · exfalso
        push_neg at h2
        exact h1 ⟨h2.1, by omega⟩

/-- The router sends control back to synthesis only when the validation
run that just finished incremented retryCount from 0 to 1. -/
lemma route_back_spec (o : CheckOutcome) (s : GraphState)
    (h : should_retry_sql (validation_agent o s) = "sql_generation") :
    (validation_agent o s).retry_count = s.retry_count + 1 ∧
    s.retry_count = 0 := by
  rcases validation_cases o s with ⟨hp, hr⟩ | ⟨hp, hr, hlt⟩
  · exfalso
    unfold should_retry_sql at h
    rw [if_neg (fun hc => hc.1 hp)] at h
    exact absurd h (by decide)
  · refine ⟨hr, ?_⟩
    by_cases hc : ¬ (validation_agent o s).validation_passed = true ∧
        (validation_agent o s).retry_count < 2
    · rw [hr] at hc
      omega
    · unfold should_retry_sql at h
      rw [if_neg hc] at h
      exact absurd h (by decide)

end Blend

namespace Blend

/-- One-step unfolding of the loop at positive fuel. -/
lemma sqlLoop_succ_eq (O : Oracle) (f i : Nat) (s : GraphState) :
    sqlLoop O (f + 1) i s =
      (if should_retry_sql (validation_agent (O.check i)
            (data_retrieval_agent (O.exec i)
              (sql_generation_agent (O.synth i) s))) = "sql_generation" then
        match sqlLoop O f (i + 1) (validation_agent (O.check i)
            (data_retrieval_agent (O.exec i)
              (sql_generation_agent (O.synth i) s))) with
        | none => none
        | some (t, tr, n) =>
            some (t, sql_generation_agent (O.synth i) s ::
              data_retrieval_agent (O.exec i)
                (sql_generation_agent (O.synth i) s) ::
              validation_agent (O.check i) (data_retrieval_agent (O.exec i)
                (sql_generation_agent (O.synth i) s)) :: tr, n + 1)
      else
        some (insight_generation_agent O.narr (validation_agent (O.check i)
            (data_retrieval_agent (O.exec i)
              (sql_generation_agent (O.synth i) s))),
          [sql_generation_agent (O.synth i) s,
           data_retrieval_agent (O.exec i) (sql_generation_agent (O.synth i) s),
           validation_agent (O.check i) (data_retrieval_agent (O.exec i)
             (sql_generation_agent (O.synth i) s)),
           insight_generation_agent O.narr (validation_agent (O.check i)
             (data_retrieval_agent (O.exec i)
               (sql_generation_agent (O.synth i) s)))], 1)) :=
  rfl

lemma sqlLoop_some_of_retry_pos (O : Oracle) (f i : Nat) (s : GraphState)
    (hr : 1 ≤ s.retry_count) :
    (sqlLoop O (f + 1) i s).isSome = true := by
  by_cases hroute : should_retry_sql (validation_agent (O.check i)
      (data_retrieval_agent (O.exec i) (sql_generation_agent (O.synth i) s))) =
      "sql_generation"
  · exfalso
    have h0 := (route_back_spec (O.check i) _ hroute).2
    rw [(dr_preserves (O.exec i) _).1, (sg_preserves (O.synth i) s).1] at h0
    omega
  · rw [sqlLoop_succ_eq, if_neg hroute]
    rfl

lemma sqlLoop_total (O : Oracle) (f i : Nat) (s : GraphState) :
    (sqlLoop O (f + 2) i s).isSome = true := by
  by_cases hroute : should_retry_sql (validation_agent (O.check i)
      (data_retrieval_agent (O.exec i) (sql_generation_agent (O.synth i) s))) =
      "sql_generation"
  · have h1 := (route_back_spec (O.check i) _ hroute).1
    have hsome := sqlLoop_some_of_retry_pos O f (i + 1)
      (validation_agent (O.check i) (data_retrieval_agent (O.exec i)
        (sql_generation_agent (O.synth i) s))) (by rw [h1]; omega)
    obtain ⟨⟨t, tr, n⟩, hout⟩ := Option.isSome_iff_exists.mp hsome
    show (sqlLoop O (f + 1 + 1) i s).isSome = true
    rw [sqlLoop_succ_eq, if_pos hroute, hout]
    rfl
  · show (sqlLoop O (f + 1 + 1) i s).isSome = true
    rw [sqlLoop_succ_eq, if_neg hroute]
    rfl

end Blend

namespace Blend

lemma sqlLoop_inv (O : Oracle) :
    ∀ (fuel i : Nat) (s t : GraphState) (tr : List GraphState) (n : Nat),
      sqlLoop O fuel i s = some (t, tr, n) → s.retry_count ≤ 2 →
      ∀ x ∈ tr, x.retry_count ≤ 2 := by
  intro fuel
  induction fuel with
  | zero =>
      intro i s t tr n h
      exact absurd h (by simp [sqlLoop])
  | succ f ih =>
      intro i s t tr n h hs
      rw [sqlLoop_succ_eq] at h
      have e1 : (sql_generation_agent (O.synth i) s).retry_count =
          s.retry_count := (sg_preserves _ _).1
      have e2 : (data_retrieval_agent (O.exec i)
            (sql_generation_agent (O.synth i) s)).retry_count =
          (sql_generation_agent (O.synth i) s).retry_count :=
        (dr_preserves _ _).1
      have e3 := validation_cases (O.check i)
        (data_retrieval_agent (O.exec i) (sql_generation_agent (O.synth i) s))
      have h3 : (validation_agent (O.check i) (data_retrieval_agent (O.exec i)
          (sql_generation_agent (O.synth i) s))).retry_count ≤ 2 := by
        rcases e3 with ⟨_, hr⟩ | ⟨_, hr, hlt⟩ <;> omega
      by_cases hroute : should_retry_sql (validation_agent (O.check i)
          (data_retrieval_agent (O.exec i)
            (sql_generation_agent (O.synth i) s))) = "sql_generation"
      · rw [if_pos hroute] at h
        cases hrec : sqlLoop O f (i + 1) (validation_agent (O.check i)
            (data_retrieval_agent (O.exec i)
              (sql_generation_agent (O.synth i) s))) with
        | none => rw [hrec] at h; exact absurd h (by simp)
        | some out =>
            obtain ⟨t', tr', n'⟩ := out
            rw [hrec] at h
            simp only [Option.some.injEq, Prod.mk.injEq] at h
            obtain ⟨hteq, htreq, hneq⟩ := h
            intro x hx
            rw [← htreq] at hx
            rcases List.mem_cons.mp hx with rfl | hx
            · omega
            rcases List.mem_cons.mp hx with rfl | hx
            · omega
            rcases List.mem_cons.mp hx with rfl | hx
            · exact h3
            exact ih (i + 1) _ t' tr' n' hrec h3 x hx
      · rw [if_neg hroute] at h
        simp only [Option.some.injEq, Prod.mk.injEq] at h
        obtain ⟨hteq, htreq, hneq⟩ := h
        intro x hx
        rw [← htreq] at hx
        have e4 : (insight_generation_agent O.narr (validation_agent (O.check i)
            (data_retrieval_agent (O.exec i)
              (sql_generation_agent (O.synth i) s)))).retry_count =
            (validation_agent (O.check i) (data_retrieval_agent (O.exec i)
              (sql_generation_agent (O.synth i) s))).retry_count :=
          (ig_preserves _ _).1
        rcases List.mem_cons.mp hx with rfl | hx
        · omega
        rcases List.mem_cons.mp hx with rfl | hx
        · omega
        rcases List.mem_cons.mp hx with rfl | hx
        · exact h3
        rcases List.mem_cons.mp hx with rfl | hx
        · omega
        exact absurd hx (List.not_mem_nil x)

end Blend

namespace Blend

lemma sqlLoop_attempts (O : Oracle) :
    ∀ (fuel i : Nat) (s t : GraphState) (tr : List GraphState) (n : Nat),
      sqlLoop O fuel i s = some (t, tr, n) →
      t.sql_attempts = s.sql_attempts ++ attemptTexts O (mdOK s) i n := by
  intro fuel
  induction fuel with
  | zero =>
      intro i s t tr n h
      exact absurd h (by simp [sqlLoop])
  | succ f ih =>
      intro i s t tr n h
      rw [sqlLoop_succ_eq] at h
      have e1 : (sql_generation_agent (O.synth i) s).sql_attempts =
          s.sql_attempts ++
            (if mdOK s then
              match O.synth i with
              | SynthOutcome.ok raw _ _ => [cleanSql raw]
              | SynthOutcome.err _ => []
             else []) := sg_attempts _ _
      have e2 : (data_retrieval_agent (O.exec i)
            (sql_generation_agent (O.synth i) s)).sql_attempts =
          (sql_generation_agent (O.synth i) s).sql_attempts :=
        (dr_preserves _ _).2.1
      have e3 : (validation_agent (O.check i) (data_retrieval_agent (O.exec i)
            (sql_generation_agent (O.synth i) s))).sql_attempts =
          (data_retrieval_agent (O.exec i)
            (sql_generation_agent (O.synth i) s)).sql_attempts :=
        (val_preserves _ _).1
      have emd : mdOK (validation_agent (O.check i)
          (data_retrieval_agent (O.exec i)
            (sql_generation_agent (O.synth i) s))) = mdOK s := by
        rw [mdOK_congr _ _ (val_preserves _ _).2.1 (val_preserves _ _).2.2,
            mdOK_congr _ _ (dr_preserves _ _).2.2.1 (dr_preserves _ _).2.2.2,
            mdOK_congr _ _ (sg_preserves _ _).2.1 (sg_preserves _ _).2.2]
      by_cases hroute : should_retry_sql (validation_agent (O.check i)
          (data_retrieval_agent (O.exec i)
            (sql_generation_agent (O.synth i) s))) = "sql_generation"
      · rw [if_pos hroute] at h
        cases hrec : sqlLoop O f (i + 1) (validation_agent (O.check i)
            (data_retrieval_agent (O.exec i)
              (sql_generation_agent (O.synth i) s))) with
        | none => rw [hrec] at h; exact absurd h (by simp)
        | some out =>
            obtain ⟨t', tr', n'⟩ := out
            rw [hrec] at h
            simp only [Option.some.injEq, Prod.mk.injEq] at h
            obtain ⟨hteq, htreq, hneq⟩ := h
            subst hteq
            have hrec2 := ih (i + 1) _ t' tr' n' hrec
            rw [emd, e3, e2, e1] at hrec2
            rw [hrec2, ← hneq]
            simp only [attemptTexts, List.append_assoc]
      · rw [if_neg hroute] at h
        simp only [Option.some.injEq, Prod.mk.injEq] at h
        obtain ⟨hteq, htreq, hneq⟩ := h
        subst hteq
        have e4 : (insight_generation_agent O.narr (validation_agent (O.check i)
            (data_retrieval_agent (O.exec i)
              (sql_generation_agent (O.synth i) s)))).sql_attempts =
            (validation_agent (O.check i) (data_retrieval_agent (O.exec i)
              (sql_generation_agent (O.synth i) s))).sql_attempts :=
          (ig_preserves _ _).2.1
        rw [e4, e3, e2, e1, ← hneq]
        simp [attemptTexts]

end Blend

namespace Blend

/-- Unfolding of the compiled workflow. -/
lemma runPipeline_eq (O : Oracle) (s0 : GraphState) :
    runPipeline O s0 =
      if should_generate_sql (query_understanding_agent O.classify s0) =
          "generate_summary" then
        some (insight_generation_agent O.narr
            (query_understanding_agent O.classify s0),
          [s0, query_understanding_agent O.classify s0,
           insight_generation_agent O.narr
             (query_understanding_agent O.classify s0)], 0)
      else
        match sqlLoop O 3 0 (query_understanding_agent O.classify s0) with
        | none => none
        | some (t, tr, n) =>
            some (t, s0 :: query_understanding_agent O.classify s0 :: tr, n) :=
  rfl

/-- C2: for every oracle behaviour and every request, the pipeline
terminates with a result, and retryCount never exceeds 2 at any state of
the run's trace. -/
theorem C2_bounded_retry_terminates (O : Oracle) (q : String)
    (fid : Option String) (md : Option FileMeta) (tn : Option String) :
    ∃ t tr n, runPipeline O (initState q fid md tn) = some (t, tr, n) ∧
      ∀ x ∈ tr, x.retry_count ≤ 2 := by
  have h0 : (initState q fid md tn).retry_count = 0 := rfl
  have h1 : (query_understanding_agent O.classify
      (initState q fid md tn)).retry_count = 0 := by
    rw [(qua_preserves _ _).1]
    exact h0
  by_cases hb : should_generate_sql (query_understanding_agent O.classify
      (initState q fid md tn)) = "generate_summary"
  · refine ⟨insight_generation_agent O.narr (query_understanding_agent
        O.classify (initState q fid md tn)),
      [initState q fid md tn,
       query_understanding_agent O.classify (initState q fid md tn),
       insight_generation_agent O.narr (query_understanding_agent O.classify
         (initState q fid md tn))], 0, ?_, ?_⟩
    · rw [runPipeline_eq, if_pos hb]
    · intro x hx
      have h2 : (insight_generation_agent O.narr
          (query_understanding_agent O.classify
            (initState q fid md tn))).retry_count = 0 := by
        rw [(ig_preserves _ _).1, h1]
      rcases List.mem_cons.mp hx with rfl | hx
      · omega
      rcases List.mem_cons.mp hx with rfl | hx
      · omega
      rcases List.mem_cons.mp hx with rfl | hx
      · omega
      exact absurd hx (List.not_mem_nil x)
  · have hsome := sqlLoop_total O 1 0
      (query_understanding_agent O.classify (initState q fid md tn))
    obtain ⟨⟨t, tr, n⟩, hout⟩ := Option.isSome_iff_exists.mp hsome
    refine ⟨t, initState q fid md tn ::
      query_understanding_agent O.classify (initState q fid md tn) :: tr,
      n, ?_, ?_⟩
    · rw [runPipeline_eq, if_neg hb, hout]
    · intro x hx
      rcases List.mem_cons.mp hx with rfl | hx
      · omega
      rcases List.mem_cons.mp hx with rfl | hx
      · omega
      exact sqlLoop_inv O 3 0 _ t tr n hout (by omega) x hx

end Blend

namespace Blend

/-- C3 counterexample: with no dataset bound, the synthesis stage runs
(once here: the checker accepts on the first pass) but short-circuits on
the missing metadata and appends nothing, so queryTextHistory has length
0 while Synthesis ran 1 time — refuting the claimed equality for runs
where Synthesis short-circuits. -/
theorem C3_counterexample :
    ((runPipeline OAllGood stNoData).map (fun out =>
       (out.2.2, out.1.sql_attempts.length))) = some (1, 0) := by
  decide

/-- C3 amended: at termination, queryTextHistory equals, in attempt
order, oldest first and never deduplicated, the cleaned query text of
every Synthesis run that actually invoked the synthesizer (dataset guard
passed) without raising; runs that short-circuit on a missing dataset or
fail internally append nothing. -/
theorem C3_attempts_match_invocations (O : Oracle) (q : String)
    (fid : Option String) (md : Option FileMeta) (tn : Option String)
    (t : GraphState) (tr : List GraphState) (n : Nat)
    (h : runPipeline O (initState q fid md tn) = some (t, tr, n)) :
    t.sql_attempts = attemptTexts O (mdOK (initState q fid md tn)) 0 n := by
  rw [runPipeline_eq] at h
  by_cases hb : should_generate_sql (query_understanding_agent O.classify
      (initState q fid md tn)) = "generate_summary"
  · rw [if_pos hb] at h
    simp only [Option.some.injEq, Prod.mk.injEq] at h
    obtain ⟨hteq, htreq, hneq⟩ := h
    subst hteq
    rw [← hneq, (ig_preserves _ _).2.1, (qua_preserves _ _).2.1]
    rfl
  · rw [if_neg hb] at h
    cases hrec : sqlLoop O 3 0 (query_understanding_agent O.classify
        (initState q fid md tn)) with
    | none => rw [hrec] at h; exact absurd h (by simp)
    | some out =>
        obtain ⟨t', tr', n'⟩ := out
        rw [hrec] at h
        simp only [Option.some.injEq, Prod.mk.injEq] at h
        obtain ⟨hteq, htreq, hneq⟩ := h
        subst hteq
        have hat := sqlLoop_attempts O 3 0 _ t' tr' n' hrec
        rw [hat, ← hneq, (qua_preserves _ _).2.1,
            mdOK_congr _ _ (qua_preserves _ _).2.2.1
              (qua_preserves _ _).2.2.2.1]
        rfl

/-- Witness for C3 amended at a concrete input: a dataset-bound request
whose every stage succeeds records exactly one cleaned attempt text. -/
theorem C3_witness :
    (match runPipeline OAllGood stWithData with
     | none => False
     | some (t, _tr, n) =>
         t.sql_attempts = attemptTexts OAllGood (mdOK stWithData) 0 n) := by
  cases hrun : runPipeline OAllGood stWithData with
  | none => exact absurd hrun (by decide)
  | some out =>
      obtain ⟨t, tr, n⟩ := out
      exact C3_attempts_match_invocations OAllGood "top regions" (some "f1")
        (some mdAB) (some "tbl_f1") t tr n hrun

/-- C4: a request the classifier marks as summarization skips the
Synthesis / Execution / Result-Check loop entirely (zero loop
iterations), and at termination the rows are empty, the row count is 0
and queryTextHistory is empty. -/
theorem C4_summarization_skips_sql (O : Oracle) (q : String)
    (fid : Option String) (md : Option FileMeta) (tn : Option String)
    (it : Option String) (ents : Option (List (String × String)))
    (hcl : O.classify = ClassifyOutcome.ok (some "summarization") it ents) :
    ∃ t tr, runPipeline O (initState q fid md tn) = some (t, tr, 0) ∧
      t.query_results = [] ∧ t.result_count = 0 ∧ t.sql_attempts = [] := by
  have hqt : (query_understanding_agent O.classify
      (initState q fid md tn)).query_type = some "summarization" := by
    rw [hcl]
    rfl
  have hb : should_generate_sql (query_understanding_agent O.classify
      (initState q fid md tn)) = "generate_summary" := by
    unfold should_generate_sql
    rw [hqt]
    rfl
  refine ⟨insight_generation_agent O.narr (query_understanding_agent
      O.classify (initState q fid md tn)),
    [initState q fid md tn,
     query_understanding_agent O.classify (initState q fid md tn),
     insight_generation_agent O.narr (query_understanding_agent O.classify
       (initState q fid md tn))], ?_, ?_, ?_, ?_⟩
  · rw [runPipeline_eq, if_pos hb]
  · rw [(ig_preserves _ _).2.2.1, (qua_preserves _ _).2.2.2.2.1]
    rfl
  · rw [(ig_preserves _ _).2.2.2, (qua_preserves _ _).2.2.2.2.2]
    rfl
  · rw [(ig_preserves _ _).2.1, (qua_preserves _ _).2.1]
    rfl

/-- Witness for C4 at a concrete input: a summarize request over a bound
dataset. -/
theorem C4_witness :
    ∃ t tr, runPipeline OSummarize stWithData = some (t, tr, 0) ∧
      t.query_results = [] ∧ t.result_count = 0 ∧ t.sql_attempts = [] :=
  C4_summarization_skips_sql OSummarize "top regions" (some "f1") (some mdAB)
    (some "tbl_f1") (some "summarize") (some []) rfl

/-- C1: the claim fails on the code.  With a checker that reports the
results invalid on every pass, the run performs only 2 synthesis
attempts (not 3), and proceeds to Narrative with validationPassed=false
and the issues still recorded (not a forced validationPassed=true with
cleared issues): validation_agent increments retry_count before
should_retry_sql re-reads it, so the forced-acceptance branch of
validation.py is unreachable from the graph. -/
theorem C1_code_bug_eval :
    ((runPipeline OAlwaysInvalid stWithData).map (fun out =>
       (out.2.2, out.1.validation_passed, out.1.retry_count,
        out.1.validation_errors, out.1.insights))) =
    some (2, false, 2, ["result does not answer the question"],
      some "Here are the results.") := by
  decide

end Blend
